import Mathlib

/-!
Verification of the Speaker-Kit chat backend (Django + AIxplain agent client).

The development shallowly embeds `src/backend/src/chatbot/services/agent.py`
(the `AIxplainService` submit/poll/extract client) and the relevant slices of
`src/backend/src/chatbot/views.py` and `models.py`.  HTTP traffic is modelled
by an explicit `Provider` oracle (one function for the submit endpoint, one
indexed family for the poll endpoint); each embedded operation additionally
records the submit requests it issued and the number of poll attempts it
performed, so that claims about "no HTTP call is made" are statable.
-/

namespace SpeakerKit

/-- JSON-like values, as produced by `response.json()` in the Python code.
Objects are association lists (Python dicts have unique keys; lookup takes
the first binding). -/
inductive JValue where
  | str : String → JValue
  | num : Int → JValue
  | jbool : Bool → JValue
  | null : JValue
  | obj : List (String × JValue) → JValue

/-- Python truthiness for the JSON values the code branches on. -/
def truthy : JValue → Bool
  | .str s => s != ""
  | .num n => n != 0
  | .jbool b => b
  | .null => false
  | .obj l => !l.isEmpty

/-- `d.get(k, default)` on a Python dict. -/
def jget (l : List (String × JValue)) (k : String) (d : JValue) : JValue :=
  match l.lookup k with
  | some v => v
  | none => d

mutual

/-- `str(value)` on the Python side, for the `str(content)` fallback of
`_extract_content_from_result` (dict rendering in Python repr style). -/
def reprJValue : JValue → String
  | .str s => "\x27" ++ s ++ "\x27"
  | .num n => toString n
  | .jbool b => if b then "True" else "False"
  | .null => "None"
  | .obj l => "\x7b" ++ String.intercalate ", " (reprEntries l) ++ "\x7d"

def reprEntries : List (String × JValue) → List String
  | [] => []
  | (k, v) :: rest => ("\x27" ++ k ++ "\x27: " ++ reprJValue v) :: reprEntries rest

end

/-- Characters removed by Python `str.strip()` with no argument
(ASCII whitespace; the exotic unicode spaces are not needed by any payload
considered here). -/
def isSpaceChar (c : Char) : Bool :=
  c == ' ' || c == '\t' || c == '\n' || c == '\r' || c == '\x0b' || c == '\x0c'

/-- Python `s.strip()`: drop leading and trailing whitespace. -/
def pyStrip (s : String) : String :=
  String.mk (((s.data.dropWhile isSpaceChar).reverse.dropWhile isSpaceChar).reverse)

/-- `result.get(k1, {}).get(k2, '')`: raises `AttributeError` (modelled as
`Except.error`) when the value under `k1` is present but is not a dict. -/
def nestedGet (l : List (String × JValue)) (k1 k2 : String) : Except Unit JValue :=
  match jget l k1 (.obj []) with
  | .obj inner => .ok (jget inner k2 (.str ""))
  | _ => .error ()

/-- The nine candidate accesses of `_extract_content_from_result`, in source
order: top-level `output`, `response`, `message`, `content`, `text`, then
`data.output`, `data.response`, `result.output`, `result.response`. -/
def candidates (l : List (String × JValue)) : List (Except Unit JValue) :=
  [ .ok (jget l "output" (.str "")),
    .ok (jget l "response" (.str "")),
    .ok (jget l "message" (.str "")),
    .ok (jget l "content" (.str "")),
    .ok (jget l "text" (.str "")),
    nestedGet l "data" "output",
    nestedGet l "data" "response",
    nestedGet l "result" "output",
    nestedGet l "result" "response" ]

/-- Python `a or b or ...` over the candidate list: first truthy value wins;
an exception raised before any truthy value propagates; if no value is truthy
the last value is returned. -/
def orChain : List (Except Unit JValue) → Except Unit JValue
  | [] => .ok (.str "")
  | [x] => x
  | x :: y :: rest =>
    match x with
    | .error e => .error e
    | .ok v => if truthy v then .ok v else orChain (y :: rest)

/-- The inner chain applied when the located candidate is a dict:
`content.get('text','') or content.get('message','') or
content.get('content','') or str(content)`. -/
def innerChain (d : List (String × JValue)) : JValue :=
  let t := jget d "text" (.str "")
  if truthy t then t else
  let m := jget d "message" (.str "")
  if truthy m then m else
  let c := jget d "content" (.str "")
  if truthy c then c else .str (reprJValue (.obj d))

/-- `AIxplainService._extract_content_from_result`.  Returns `none` where the
Python function returns `None` (all candidates falsy, or an exception caught
by the surrounding `try`, including `.strip()` on a non-string value). -/
def extract_content_from_result (l : List (String × JValue)) : Option String :=
  match orChain (candidates l) with
  | .error _ => none
  | .ok v =>
    let content := match v with
      | .obj d => innerChain d
      | other => other
    if truthy content then
      match content with
      | .str s => some (pyStrip s)
      | _ => none
    else none

/-! ## The HTTP provider oracle -/

/-- The JSON body submitted to `POST {base}/agents/{agentId}/run`:
`{query: ..., sessionId?: ...}`. -/
structure SubmitReq where
  query : String
  sessionId : Option String
deriving DecidableEq, Repr

/-- The submit response as read by the code: HTTP status, the `requestId`
and `sessionId` fields of the parsed JSON body, the rendered JSON error
detail when the body parses (else `none`), and the raw text. -/
structure SubmitResp where
  statusCode : Nat
  requestId : Option String
  sessionId : Option String
  errorJson : Option String
  text : String

/-- Outcome of one poll attempt `GET {base}/agents/{requestId}/result`:
a network failure (`requests.exceptions.RequestException`) or a reply with a
status code and a parsed JSON object body. -/
inductive PollOutcome where
  | netError : PollOutcome
  | reply : Nat → List (String × JValue) → PollOutcome

/-- The external agent provider: deterministic submit endpoint, and the
outcome of the n-th poll attempt (1-indexed) for a given request id. -/
structure Provider where
  submit : SubmitReq → SubmitResp
  poll : String → Nat → PollOutcome

/-- The dict returned by the service methods: either
`{'success': True, 'content': ..., 'session_id': ..., 'request_id': ...,
'full_result': ...}` or `{'success': False, 'error': ...}`. -/
inductive AgentResult where
  | success (content : String) (session_id : Option String) (request_id : String)
      (full_result : List (String × JValue)) : AgentResult
  | failure (error : String) : AgentResult

/-- Result of a poll loop together with the number of attempts performed. -/
structure PollRun where
  result : AgentResult
  attempts : Nat

/-- One iteration body of `_poll_for_result`'s `while` loop, with `fuel`
remaining iterations and `attempts` attempts already performed. -/
def pollLoopAux (p : Provider) (request_id : String) (session_id : Option String) :
    Nat → Nat → PollRun
  | 0, attempts => ⟨.failure "Agent response timeout", attempts⟩
  | fuel + 1, attempts =>
    let attempt := attempts + 1
    match p.poll request_id attempt with
    | .netError => pollLoopAux p request_id session_id fuel attempt
    | .reply status body =>
      if status != 200 then
        pollLoopAux p request_id session_id fuel attempt
      else if truthy (jget body "completed" .null) then
        match extract_content_from_result body with
        | some c =>
          if c != "" then
            ⟨.success c session_id request_id body, attempt⟩
          else
            ⟨.failure "Empty response from agent", attempt⟩
        | none => ⟨.failure "Empty response from agent", attempt⟩
      else
        pollLoopAux p request_id session_id fuel attempt

/-- `AIxplainService._poll_for_result`: at most `max_attempts = 24` poll
attempts; a completed 200 reply is extracted; everything else sleeps 5s and
retries; exhausting the attempts yields the timeout failure. -/
def poll_for_result (p : Provider) (request_id : String) (session_id : Option String) :
    PollRun :=
  pollLoopAux p request_id session_id 24 0

/-! ## The AIxplainService operations -/

/-- Service configuration read from Django settings in `AIxplainService.__init__`. -/
structure Config where
  api_key : String
  base_url : String
  agent_id : String

/-- `if not self.api_key or not self.agent_id` (negated). -/
def Config.configured (cfg : Config) : Bool :=
  cfg.api_key != "" && cfg.agent_id != ""

/-- Python truthiness of an optional string (`None` and `''` are falsy). -/
def otruthy : Option String → Bool
  | some s => s != ""
  | none => false

/-- Python `a or b` on optional strings. -/
def pyOr (a b : Option String) : Option String :=
  if otruthy a then a else b

/-- A run of one service operation: its result, the submit requests it
issued (in order), and the number of poll attempts it performed. -/
structure ServiceRun where
  result : AgentResult
  submits : List SubmitReq
  pollAttempts : Nat

/-- The submit-failure message built for a non-2xx response:
`'Agent submission failed with status {code}'` extended with the JSON error
detail when the body parses, else the raw response text. -/
def submitErrorMsg (resp : SubmitResp) : String :=
  let base := "Agent submission failed with status " ++ toString resp.statusCode
  match resp.errorJson with
  | some j => base ++ ": " ++ j
  | none => base ++ ": " ++ resp.text

/-- `response_data.get("requestId")` followed by the `if not request_id`
guard: yields the request id only when it is a truthy string. -/
def truthyOf (o : Option String) : Option String :=
  match o with
  | some s => if s != "" then some s else none
  | none => none

/-- `AIxplainService.generate_response_sync`.  The `system_prompt`,
`conversation_history` and `image_path` parameters of the source are never
read by the body (only logged); `system_prompt` is kept here for fidelity. -/
def generate_response_sync (cfg : Config) (p : Provider) (system_prompt : String)
    (user_message : String) (session_id : Option String) : ServiceRun :=
  if !cfg.configured then
    ⟨.failure "AIxplain API key or Agent ID not configured", [], 0⟩
  else
    let req : SubmitReq := ⟨user_message, if otruthy session_id then session_id else none⟩
    let resp := p.submit req
    if resp.statusCode != 200 && resp.statusCode != 201 then
      ⟨.failure (submitErrorMsg resp), [req], 0⟩
    else
      match truthyOf resp.requestId with
      | none => ⟨.failure "No request ID received from agent", [req], 0⟩
      | some request_id =>
        let sid := pyOr resp.sessionId session_id
        let pr := poll_for_result p request_id sid
        ⟨pr.result, [req], pr.attempts⟩

/-- `AIxplainService.run_agent_simple`: `generate_response_sync` with an
empty system prompt. -/
def run_agent_simple (cfg : Config) (p : Provider) (message : String)
    (session_id : Option String) : ServiceRun :=
  generate_response_sync cfg p "" message session_id

/-- The hard-coded instruction block that
`AIxplainService.initialize_with_system_prompt` sends as the `query` field,
regardless of its `system_prompt` argument.  (The full multi-line text of the
source is abbreviated to its opening sentence; no claim depends on the exact
wording, only on the fact that it is a fixed constant.) -/
def INIT_QUERY : String :=
  "Instructions -> You are an assistant helping a professional speaker create their speaker kit."

/-- `AIxplainService.initialize_with_system_prompt` (the `system_prompt`
argument is only logged, never placed in the request; the payload query is
the hard-coded `INIT_QUERY` block). -/
def init_with_system_prompt (cfg : Config) (p : Provider) (system_prompt : String)
    (session_id : Option String) : ServiceRun :=
  if !cfg.configured then
    ⟨.failure "AIxplain API key or Agent ID not configured", [], 0⟩
  else
    let req : SubmitReq := ⟨INIT_QUERY, if otruthy session_id then session_id else none⟩
    let resp := p.submit req
    if resp.statusCode != 200 && resp.statusCode != 201 then
      ⟨.failure (submitErrorMsg resp), [req], 0⟩
    else
      match truthyOf resp.requestId with
      | none => ⟨.failure "No request ID received from agent", [req], 0⟩
      | some request_id =>
        let sid := pyOr resp.sessionId session_id
        let pr := poll_for_result p request_id sid
        ⟨pr.result, [req], pr.attempts⟩

/-- `AIxplainService.continue_conversation`.  The payload always carries the
caller-supplied `sessionId`; only `requestId` is read from the submit
response (the provider-returned `sessionId` is ignored), and the poll is run
with the original `session_id`. -/
def continue_conversation (cfg : Config) (p : Provider) (user_message : String)
    (session_id : String) : ServiceRun :=
  if !cfg.configured then
    ⟨.failure "AIxplain API key or Agent ID not configured", [], 0⟩
  else
    let req : SubmitReq := ⟨user_message, some session_id⟩
    let resp := p.submit req
    if resp.statusCode != 200 && resp.statusCode != 201 then
      ⟨.failure (submitErrorMsg resp), [req], 0⟩
    else
      match truthyOf resp.requestId with
      | none => ⟨.failure "No request ID received from agent", [req], 0⟩
      | some request_id =>
        let pr := poll_for_result p request_id (some session_id)
        ⟨pr.result, [req], pr.attempts⟩

/-! ## The view layer (`chatbot/views.py`) and persisted state

Django state is made explicit: the record store holds `Conversation` and
`Message` rows (`chatbot/models.py`), and `request.session` is a key-value
store.  UUID validation (which rejects malformed conversation ids with a 400
before any store or agent interaction) is upstream of everything modelled
here and is omitted; all claims concern flows past it. -/

/-- `Conversation` row (`chatbot/models.py`): the `aixplain_session_id`
column is nullable, defaults to null, and — notably — is never assigned
anywhere in the application code. -/
structure ConversationRec where
  id : String
  title : String
  aixplain_session_id : Option String
deriving DecidableEq, Repr

/-- `Message` row: parent conversation, `message_type` (user/ai/system),
text content, and whether an image attachment is present. -/
structure MessageRec where
  conversation : String
  message_type : String
  content : String
  hasImage : Bool
deriving DecidableEq, Repr

/-- The mutable state visible to the views: the database rows plus the
cookie-backed `request.session` mapping. -/
structure AppState where
  conversations : List ConversationRec
  messages : List MessageRec
  httpSession : List (String × String)
deriving DecidableEq, Repr

/-- `request.session[k] = v` (overwrite-or-insert). -/
def sessionSet (s : List (String × String)) (k v : String) : List (String × String) :=
  (k, v) :: s.filter (fun kv => kv.1 != k)

/-- The `request.session` key used for a conversation's AIxplain session id:
`f'aixplain_session_{conversation.id}'`. -/
def sessionKey (cid : String) : String :=
  "aixplain_session_" ++ cid

/-- The system prompt of `chatbot/prompts.py`
(`get_speaker_kit_system_prompt`), abbreviated to its opening sentence; the
agent client never reads it, so no claim depends on its full text. -/
def SPEAKER_KIT_SYSTEM_PROMPT : String :=
  "Instructions -> You are an assistant helping a professional speaker create their speaker kit."

/-- The static fallback greeting persisted when initialization fails
(`views.get_conversation_messages`), abbreviated to its opening words. -/
def FALLBACK_GREETING : String :=
  "Hi there! I\x27m here to help you build your speaker kit."

/-- `views.initialize_conversation_with_system_prompt`: sends the prompt from
`prompts.py` to `AIxplainService.initialize_with_system_prompt` (with no
session id) and returns the result on success, `None` otherwise. -/
def init_conversation_with_system_prompt (cfg : Config) (p : Provider) :
    Option AgentResult :=
  match (init_with_system_prompt cfg p SPEAKER_KIT_SYSTEM_PROMPT none).result with
  | .success c s r f => some (.success c s r f)
  | .failure _ => none

/-- `views.continue_conversation_with_agent`: fails without any HTTP call
when the session id is missing (Python `if not session_id`), otherwise
appends the image marker to the user content and delegates to
`AIxplainService.continue_conversation`. -/
def continue_conversation_with_agent (cfg : Config) (p : Provider)
    (user_content : String) (image : Bool) (session_id : Option String) : ServiceRun :=
  if !otruthy session_id then
    ⟨.failure "No session ID - conversation not properly initialized", [], 0⟩
  else
    let user_message :=
      if image then user_content ++ " [I\x27ve uploaded an image]" else user_content
    continue_conversation cfg p user_message (session_id.getD "")

/-- `views.get_conversation_messages`, state effects only (the serialized
message list it returns is a pure read of the final state).  When the
conversation does not exist it is created (with a null
`aixplain_session_id`), initialized via the agent, and on success the
returned session id is stored in `request.session`; on failure a static
fallback greeting is persisted instead. -/
def get_conversation_messages (cfg : Config) (p : Provider) (st : AppState)
    (cid : String) : AppState :=
  match st.conversations.find? (fun c => c.id == cid) with
  | some _ => st
  | none =>
    let conv : ConversationRec := ⟨cid, "Speaker Kit Assistant", none⟩
    let st1 : AppState := { st with conversations := st.conversations ++ [conv] }
    match init_conversation_with_system_prompt cfg p with
    | some (.success content sid _ _) =>
      let st2 : AppState :=
        { st1 with messages := st1.messages ++ [⟨cid, "ai", content, false⟩] }
      if otruthy sid then
        { st2 with httpSession := sessionSet st2.httpSession (sessionKey cid) (sid.getD "") }
      else st2
    | _ =>
      { st1 with messages := st1.messages ++ [⟨cid, "ai", FALLBACK_GREETING, false⟩] }

/-- Outcome of `views.send_message`: the final state, the HTTP status code of
the response, and the `agent_error` / `agent_error_details` fields of the
response body (absent on the success and 400 paths). -/
structure SmOutcome where
  state : AppState
  statusCode : Nat
  agent_error : Bool
  agent_error_details : Option String
deriving DecidableEq, Repr

/-- `views.send_message`, steps up to and including the creation of the user
message and the session-id lookup (with the re-initialize-if-missing fix):
returns the intermediate state and the AIxplain session id that the agent
call will be made with. -/
def send_message_pre (cfg : Config) (p : Provider) (st : AppState) (cid : String)
    (content : String) (image : Bool) : AppState × Option String :=
  let stc : AppState :=
    match st.conversations.find? (fun c => c.id == cid) with
    | some _ => st
    | none =>
      let conv : ConversationRec := ⟨cid, "Speaker Kit Assistant", none⟩
      let st1 : AppState := { st with conversations := st.conversations ++ [conv] }
      match init_conversation_with_system_prompt cfg p with
      | some (.success c0 sid _ _) =>
        let st2 : AppState :=
          { st1 with messages := st1.messages ++ [⟨cid, "ai", c0, false⟩] }
        if otruthy sid then
          { st2 with httpSession := sessionSet st2.httpSession (sessionKey cid) (sid.getD "") }
        else st2
      | _ => st1
  let st3 : AppState := { stc with messages := stc.messages ++ [⟨cid, "user", content, image⟩] }
  let stored := st3.httpSession.lookup (sessionKey cid)
  match stored with
  | some s => (st3, some s)
  | none =>
    match init_conversation_with_system_prompt cfg p with
    | some (.success _ sid _ _) =>
      if otruthy sid then
        ({ st3 with httpSession := sessionSet st3.httpSession (sessionKey cid) (sid.getD "") },
         sid)
      else (st3, none)
    | _ => (st3, none)

/-- The agent call performed inside `views.send_message` (after
`send_message_pre`): the `continue_conversation_with_agent` run. -/
def send_message_agentCall (cfg : Config) (p : Provider) (st : AppState) (cid : String)
    (rawContent : String) (image : Bool) : ServiceRun :=
  let content := pyStrip rawContent
  let pre := send_message_pre cfg p st cid content image
  continue_conversation_with_agent cfg p content image pre.2

/-- `views.send_message` (post UUID validation).  Missing content and image
is a 400; otherwise the user message is persisted, the agent is called, and
on success (resp. failure) the agent reply (resp. the static error text) is
persisted as an `ai` message and the turn returns HTTP 201, with the
`agent_error` diagnostic fields set on the failure path. -/
def send_message (cfg : Config) (p : Provider) (st : AppState) (cid : String)
    (rawContent : String) (image : Bool) : SmOutcome :=
  let content := pyStrip rawContent
  if content == "" && !image then
    ⟨st, 400, false, none⟩
  else
    let pre := send_message_pre cfg p st cid content image
    let run := continue_conversation_with_agent cfg p content image pre.2
    match run.result with
    | .success c s _ _ =>
      let st4 : AppState :=
        if otruthy s then
          { pre.1 with httpSession := sessionSet pre.1.httpSession (sessionKey cid) (s.getD "") }
        else pre.1
      ⟨{ st4 with messages := st4.messages ++ [⟨cid, "ai", c, false⟩] }, 201, false, none⟩
    | .failure e =>
      ⟨{ pre.1 with
          messages := pre.1.messages ++
            [⟨cid, "ai", "Something went wrong. Please try again.", false⟩] },
       201, true, some e⟩

/-! ## Auxiliary predicates and spec-side comparison definitions -/

/-- A poll outcome whose JSON body carries a true `completed` flag (the
body is never inspected by the code when the status is not 200, but the
flag's presence is what the timeout claims quantify over). -/
def carriesCompleted : PollOutcome → Bool
  | .netError => false
  | .reply _ body => truthy (jget body "completed" .null)

/-- Modelled from the claim wording of C4 (and spec §4.1 step 4): inner
extraction from a structured candidate value "applies the same extraction
order one level deeper", i.e. `output`, `response`, `message`, `content`,
`text`, with the string rendering of the whole object as fallback.  This is
the comparison definition the code is checked against; the code's actual
inner order is `text`, `message`, `content`. -/
def innerChainClaimOrder (d : List (String × JValue)) : JValue :=
  let o := jget d "output" (.str "")
  if truthy o then o else
  let r := jget d "response" (.str "")
  if truthy r then r else
  let m := jget d "message" (.str "")
  if truthy m then m else
  let c := jget d "content" (.str "")
  if truthy c then c else
  let t := jget d "text" (.str "")
  if truthy t then t else .str (reprJValue (.obj d))

/-- Modelled from the claim wording of C4: content extraction with the
claimed inner candidate order (identical to
`extract_content_from_result` except for the inner chain). -/
def extract_claimOrder (l : List (String × JValue)) : Option String :=
  match orChain (candidates l) with
  | .error _ => none
  | .ok v =>
    let content := match v with
      | .obj d => innerChainClaimOrder d
      | other => other
    if truthy content then
      match content with
      | .str s => some (pyStrip s)
      | _ => none
    else none

/-! ## Concrete fixtures used by witnesses and counterexamples -/

/-- A configured service (API key and agent id both present). -/
def cfgOk : Config :=
  ⟨"key", "https://platform-api.aixplain.com/sdk", "agent"⟩

/-- A provider that accepts every submission and never completes a poll. -/
def pNeverComplete : Provider :=
  ⟨fun _ => ⟨200, some "r1", some "S1", none, ""⟩,
   fun _ _ => .reply 200 [("completed", .jbool false)]⟩

/-- A provider that accepts a submission, returns session id `T2`, and
completes on the first poll with output `Hello`. -/
def pRotate : Provider :=
  ⟨fun _ => ⟨200, some "r1", some "T2", none, ""⟩,
   fun _ _ => .reply 200 [("completed", .jbool true), ("output", .str "Hello")]⟩

/-- A provider that accepts a submission, returns session id `S1`, and
completes on the first poll with output `Hello`. -/
def pInit : Provider :=
  ⟨fun _ => ⟨200, some "r1", some "S1", none, ""⟩,
   fun _ _ => .reply 200 [("completed", .jbool true), ("output", .str "Hello")]⟩

/-- A provider that rejects every submission with HTTP 500 and a JSON error
body rendered as `boom`. -/
def pSubmitFail : Provider :=
  ⟨fun _ => ⟨500, none, none, some "boom", "raw"⟩,
   fun _ _ => .netError⟩

/-- A provider that completes on the first poll with a payload that carries
`completed: true` but no candidate content field. -/
def pEmptyCompletion : Provider :=
  ⟨fun _ => ⟨200, some "r1", some "S1", none, ""⟩,
   fun _ _ => .reply 200 [("completed", .jbool true)]⟩

/-- The empty application state. -/
def emptyState : AppState := ⟨[], [], []⟩

/-- A state holding one conversation `c1` whose AIxplain session id `T1` is
stored in `request.session`. -/
def stOne : AppState :=
  ⟨[⟨"c1", "Speaker Kit Assistant", none⟩], [], [(sessionKey "c1", "T1")]⟩

/-! ## Helper lemmas about the poll loop -/

theorem pollLoopAux_attempts_le (p : Provider) (rid : String) (sid : Option String) :
    ∀ fuel a0, (pollLoopAux p rid sid fuel a0).attempts ≤ a0 + fuel := by
  intro fuel
  induction fuel with
  | zero => intro a0; simp [pollLoopAux]
  | succ n ih =>
    intro a0
    rw [pollLoopAux]
    have hih := ih (a0 + 1)
    split
    · omega
    · split
      · omega
      · split
        · split
          · split <;> (dsimp only; omega)
          · dsimp only; omega
        · omega

theorem pollLoopAux_never_completed (p : Provider) (rid : String) (sid : Option String) :
    ∀ fuel a0,
      (∀ n, a0 < n → n ≤ a0 + fuel → carriesCompleted (p.poll rid n) = false) →
      pollLoopAux p rid sid fuel a0 = ⟨.failure "Agent response timeout", a0 + fuel⟩ := by
  intro fuel
  induction fuel with
  | zero => intro a0 _; simp [pollLoopAux]
  | succ n ih =>
    intro a0 hnc
    have hshift : ∀ m, a0 + 1 < m → m ≤ a0 + 1 + n → carriesCompleted (p.poll rid m) = false :=
      fun m h1 h2 => hnc m (by omega) (by omega)
    have hstep : a0 + 1 + n = a0 + (n + 1) := by omega
    rw [pollLoopAux]
    split
    · rw [ih (a0 + 1) hshift, hstep]
    · rename_i status body heq
      split
      · rw [ih (a0 + 1) hshift, hstep]
      · have hfalse : truthy (jget body "completed" .null) = false := by
          have h := hnc (a0 + 1) (by omega) (by omega)
          rw [heq] at h
          exact h
        simp only [hfalse, Bool.false_eq_true, if_false]
        rw [ih (a0 + 1) hshift, hstep]

theorem pollLoopAux_success_session (p : Provider) (rid : String) (sid : Option String) :
    ∀ fuel a0 c s r f,
      (pollLoopAux p rid sid fuel a0).result = .success c s r f → s = sid := by
  intro fuel
  induction fuel with
  | zero => intro a0 c s r f h; simp [pollLoopAux] at h
  | succ n ih =>
    intro a0 c s r f h
    rw [pollLoopAux] at h
    split at h
    · exact ih (a0 + 1) c s r f h
    · split at h
      · exact ih (a0 + 1) c s r f h
      · split at h
        · split at h
          · split at h
            · dsimp only at h
              cases h
              rfl
            · dsimp only at h
              cases h
          · dsimp only at h
            cases h
        · exact ih (a0 + 1) c s r f h

/-! ## Claim theorems -/

/-- C1: in any execution of `_poll_for_result` the loop performs at most 24
attempts, and whenever no poll response ever carries a true `completed` flag
it performs exactly 24 attempts and returns the timeout failure
(`'Agent response timeout'`). -/
theorem C1_poll_bound (p : Provider) (rid : String) (sid : Option String) :
    (poll_for_result p rid sid).attempts ≤ 24 ∧
    ((∀ n, 1 ≤ n → n ≤ 24 → carriesCompleted (p.poll rid n) = false) →
      poll_for_result p rid sid = ⟨.failure "Agent response timeout", 24⟩) := by
  constructor
  · have := pollLoopAux_attempts_le p rid sid 24 0
    simpa [poll_for_result] using this
  · intro h
    have := pollLoopAux_never_completed p rid sid 24 0 (fun n h1 h2 => h n (by omega) (by omega))
    simpa [poll_for_result] using this

/-- Witness for C1: the never-completing provider exhausts exactly 24
attempts and times out. -/
theorem C1_poll_bound_witness :
    (poll_for_result pNeverComplete "r1" none).attempts ≤ 24 ∧
    poll_for_result pNeverComplete "r1" none = ⟨.failure "Agent response timeout", 24⟩ := by
  refine ⟨(C1_poll_bound pNeverComplete "r1" none).1,
    (C1_poll_bound pNeverComplete "r1" none).2 ?_⟩
  intro n _ _
  rfl

/-- C2: whenever the submit response status is outside `{200, 201}`, the
sync generation path, the system-prompt initialization path, and the
continue path all return the submission failure whose error string carries
the original status code, with zero poll attempts; the message shape
(status code embedded after the fixed prefix) is stated in the last
conjunct. -/
theorem C2_submit_failure (cfg : Config) (p : Provider) (sp msg : String)
    (sid : Option String) (sid2 : String) (hc : cfg.configured = true) :
    (∀ resp, resp = p.submit ⟨msg, if otruthy sid then sid else none⟩ →
      resp.statusCode ≠ 200 → resp.statusCode ≠ 201 →
      generate_response_sync cfg p sp msg sid =
        ⟨.failure (submitErrorMsg resp), [⟨msg, if otruthy sid then sid else none⟩], 0⟩) ∧
    (∀ resp, resp = p.submit ⟨INIT_QUERY, if otruthy sid then sid else none⟩ →
      resp.statusCode ≠ 200 → resp.statusCode ≠ 201 →
      init_with_system_prompt cfg p sp sid =
        ⟨.failure (submitErrorMsg resp), [⟨INIT_QUERY, if otruthy sid then sid else none⟩], 0⟩) ∧
    (∀ resp, resp = p.submit ⟨msg, some sid2⟩ →
      resp.statusCode ≠ 200 → resp.statusCode ≠ 201 →
      continue_conversation cfg p msg sid2 =
        ⟨.failure (submitErrorMsg resp), [⟨msg, some sid2⟩], 0⟩) ∧
    (∀ resp : SubmitResp, ∃ rest, submitErrorMsg resp =
      "Agent submission failed with status " ++ toString resp.statusCode ++ rest) := by
  refine ⟨?_, ?_, ?_, ?_⟩
  · intro resp hresp h200 h201
    have hbne : (resp.statusCode != 200 && resp.statusCode != 201) = true := by
      simp [bne_iff_ne, h200, h201]
    simp only [generate_response_sync, hc, Bool.not_true, Bool.false_eq_true, if_false,
      ← hresp, hbne, if_true]
  · intro resp hresp h200 h201
    have hbne : (resp.statusCode != 200 && resp.statusCode != 201) = true := by
      simp [bne_iff_ne, h200, h201]
    simp only [init_with_system_prompt, hc, Bool.not_true, Bool.false_eq_true, if_false,
      ← hresp, hbne, if_true]
  · intro resp hresp h200 h201
    have hbne : (resp.statusCode != 200 && resp.statusCode != 201) = true := by
      simp [bne_iff_ne, h200, h201]
    simp only [continue_conversation, hc, Bool.not_true, Bool.false_eq_true, if_false,
      ← hresp, hbne, if_true]
  · intro resp
    cases h : resp.errorJson with
    | some j => exact ⟨": " ++ j, by simp [submitErrorMsg, h, String.append_assoc]⟩
    | none => exact ⟨": " ++ resp.text, by simp [submitErrorMsg, h, String.append_assoc]⟩

/-- Witness for C2: a provider rejecting with HTTP 500 makes both the sync
and continue paths fail with the status-carrying message and no poll. -/
theorem C2_submit_failure_witness :
    generate_response_sync cfgOk pSubmitFail "" "hi" none =
      ⟨.failure "Agent submission failed with status 500: boom", [⟨"hi", none⟩], 0⟩ ∧
    continue_conversation cfgOk pSubmitFail "hi" "T1" =
      ⟨.failure "Agent submission failed with status 500: boom", [⟨"hi", some "T1"⟩], 0⟩ := by
  have h := C2_submit_failure cfgOk pSubmitFail "" "hi" none "T1" rfl
  constructor
  · have := h.1 (pSubmitFail.submit ⟨"hi", none⟩) rfl (by decide) (by decide)
    simpa using this
  · have := h.2.2.1 (pSubmitFail.submit ⟨"hi", some "T1"⟩) rfl (by decide) (by decide)
    simpa using this

/-- Counterexample for C3: the payload populating `output` with the
non-empty string `" x "` and `response` with `"y"` extracts to the
whitespace-stripped `"x"`, which is not equal to the `output` value
`" x "` — so the extracted text does not always equal the `output` value. -/
theorem C3_counterexample :
    extract_content_from_result [("output", .str " x "), ("response", .str "y")] = some "x" ∧
    (" x " : String) ≠ "" ∧ ("y" : String) ≠ "" ∧ (" x " : String) ≠ "y" ∧
    some ("x" : String) ≠ some " x " := by
  exact ⟨rfl, by decide, by decide, by decide, by decide⟩

/-- C3 (amended): for a completed payload populating both `output` and
`response` with strings and `output` non-empty, extraction selects `output`
(first-candidate-wins) and returns its whitespace-stripped value; in
particular it returns the `output` value verbatim whenever that value has no
surrounding whitespace. -/
theorem C3_amended (o r : String) (ho : o ≠ "") :
    extract_content_from_result [("output", .str o), ("response", .str r)] = some (pyStrip o) ∧
    (pyStrip o = o →
      extract_content_from_result [("output", .str o), ("response", .str r)] = some o) := by
  have ht : (o != "") = true := by simp [bne_iff_ne, ho]
  have h1 : extract_content_from_result [("output", .str o), ("response", .str r)] =
      some (pyStrip o) := by
    simp [extract_content_from_result, candidates, orChain, jget, List.lookup, truthy, ht]
  exact ⟨h1, fun hp => by rw [hp] at h1; exact h1⟩

/-- Witness for C3 (amended): concrete payload with `output = "out"`,
`response = "resp"` extracts to `"out"`. -/
theorem C3_amended_witness :
    ("out" : String) ≠ "" ∧
    extract_content_from_result [("output", .str "out"), ("response", .str "resp")] =
      some "out" := by
  refine ⟨by decide, ?_⟩
  exact (C3_amended "out" "resp" (by decide)).2 (by rfl)

/-- Counterexample for C4: for the candidate value
`{'message': 'm', 'text': 't'}`, the claimed inner order (`output`,
`response`, `message`, `content`, `text`) would select `"m"`, but the code
extracts `"t"` — its inner order is `text`, `message`, `content`. -/
theorem C4_counterexample :
    extract_content_from_result
      [("output", .obj [("message", .str "m"), ("text", .str "t")])] = some "t" ∧
    extract_claimOrder
      [("output", .obj [("message", .str "m"), ("text", .str "t")])] = some "m" ∧
    some ("t" : String) ≠ some "m" := by
  exact ⟨rfl, rfl, by decide⟩

/-- C4 (amended): when the located candidate value is itself a dict, the
extractor applies the inner candidate order `text`, `message`, `content`
(not the top-level order), falling back to a string rendering of the whole
object when none of the three is populated. -/
theorem C4_amended (t m c : String) :
    (t ≠ "" →
      extract_content_from_result
        [("output", .obj [("text", .str t), ("message", .str m), ("content", .str c)])] =
        some (pyStrip t)) ∧
    (m ≠ "" →
      extract_content_from_result
        [("output", .obj [("text", .str ""), ("message", .str m), ("content", .str c)])] =
        some (pyStrip m)) ∧
    (c ≠ "" →
      extract_content_from_result
        [("output", .obj [("text", .str ""), ("message", .str ""), ("content", .str c)])] =
        some (pyStrip c)) ∧
    extract_content_from_result [("output", .obj [("k", .str "z")])] =
      some (pyStrip (reprJValue (.obj [("k", .str "z")]))) := by
  refine ⟨?_, ?_, ?_, rfl⟩
  · intro h
    have ht : (t != "") = true := by simp [bne_iff_ne, h]
    simp [extract_content_from_result, candidates, orChain, jget, List.lookup, truthy,
      innerChain, ht]
  · intro h
    have hm : (m != "") = true := by simp [bne_iff_ne, h]
    simp [extract_content_from_result, candidates, orChain, jget, List.lookup, truthy,
      innerChain, hm]
  · intro h
    have hc : (c != "") = true := by simp [bne_iff_ne, h]
    simp [extract_content_from_result, candidates, orChain, jget, List.lookup, truthy,
      innerChain, hc]

/-- Witness for C4 (amended): concrete inner dicts exercising each of the
three inner candidates. -/
theorem C4_amended_witness :
    ("t1" : String) ≠ "" ∧ ("m1" : String) ≠ "" ∧ ("c1" : String) ≠ "" ∧
    extract_content_from_result
      [("output", .obj [("text", .str "t1"), ("message", .str "m1"), ("content", .str "c1")])] =
      some "t1" ∧
    extract_content_from_result
      [("output", .obj [("text", .str ""), ("message", .str "m1"), ("content", .str "c1")])] =
      some "m1" ∧
    extract_content_from_result
      [("output", .obj [("text", .str ""), ("message", .str ""), ("content", .str "c1")])] =
      some "c1" := by
  have h := C4_amended "t1" "m1" "c1"
  exact ⟨by decide, by decide, by decide,
    h.1 (by decide), h.2.1 (by decide), h.2.2.1 (by decide)⟩

/-- C5: the continue operation exposed to the chat flow
(`continue_conversation_with_agent`) called with an empty or null session id
immediately returns the missing-session failure, performing no submit
request and no poll attempt. -/
theorem C5_missing_session (cfg : Config) (p : Provider) (content : String) (image : Bool)
    (sid : Option String) (h : sid = none ∨ sid = some "") :
    continue_conversation_with_agent cfg p content image sid =
      ⟨.failure "No session ID - conversation not properly initialized", [], 0⟩ := by
  rcases h with h | h <;> subst h <;> rfl

/-- Witness for C5: a null session id with a live provider still makes no
HTTP call. -/
theorem C5_missing_session_witness :
    continue_conversation_with_agent cfgOk pInit "hello" false none =
      ⟨.failure "No session ID - conversation not properly initialized", [], 0⟩ :=
  C5_missing_session cfgOk pInit "hello" false none (Or.inl rfl)

/-- Counterexample for C6: the provider answers the continue submission with
session id `T2`, yet the successful result reports the caller-supplied `T1`
(and `send_message` persists `T1`): the provider-returned session id does
not take precedence in the continue path. -/
theorem C6_counterexample :
    (continue_conversation cfgOk pRotate "msg" "T1").result =
      .success "Hello" (some "T1") "r1" [("completed", .jbool true), ("output", .str "Hello")] ∧
    (pRotate.submit ⟨"msg", some "T1"⟩).sessionId = some "T2" ∧
    (some "T1" : Option String) ≠ some "T2" ∧
    (send_message cfgOk pRotate stOne "c1" "hi" false).state.httpSession.lookup
      (sessionKey "c1") = some "T1" := by
  exact ⟨rfl, rfl, by decide, rfl⟩

/-- C6 (amended): `continue_conversation` ignores the session id carried by
the provider's submit response — any successful continue result reports
exactly the caller-supplied token (which is therefore what the view layer
re-persists). -/
theorem C6_amended (cfg : Config) (p : Provider) (msg sid : String)
    (c : String) (s : Option String) (r : String) (f : List (String × JValue))
    (h : (continue_conversation cfg p msg sid).result = .success c s r f) :
    s = some sid := by
  unfold continue_conversation at h
  split at h
  · dsimp only at h; cases h
  · dsimp only at h
    split at h
    · dsimp only at h; cases h
    · split at h
      · dsimp only at h; cases h
      · dsimp only at h
        exact pollLoopAux_success_session p _ (some sid) 24 0 c s r f h

/-- Witness for C6 (amended): applied to the token-rotating provider. -/
theorem C6_amended_witness : (some "T1" : Option String) = some "T1" :=
  C6_amended cfgOk pRotate "msg" "T1" "Hello" (some "T1") "r1"
    [("completed", .jbool true), ("output", .str "Hello")] rfl

/-- Counterexample for C7: a fresh conversation whose first assistant turn
is produced by a fully successful agent initialization still has
`aixplain_session_id = none` on its `Conversation` record — the session id
goes into `request.session`, never onto the record. -/
theorem C7_counterexample :
    init_conversation_with_system_prompt cfgOk pInit =
      some (.success "Hello" (some "S1") "r1"
        [("completed", .jbool true), ("output", .str "Hello")]) ∧
    (get_conversation_messages cfgOk pInit emptyState "c1").messages =
      [⟨"c1", "ai", "Hello", false⟩] ∧
    (get_conversation_messages cfgOk pInit emptyState "c1").httpSession.lookup
      (sessionKey "c1") = some "S1" ∧
    (get_conversation_messages cfgOk pInit emptyState "c1").conversations =
      [⟨"c1", "Speaker Kit Assistant", none⟩] := by
  exact ⟨rfl, rfl, rfl, rfl⟩

/-- C7 (amended): after a successful initialization of a new conversation,
the returned session id is persisted in the HTTP session store under
`aixplain_session_<id>`, the agent reply is persisted as an assistant
message, and the `Conversation` record's `aixplain_session_id` column
remains null. -/
theorem C7_amended (cfg : Config) (p : Provider) (st : AppState) (cid content r : String)
    (s : String) (f : List (String × JValue))
    (hfind : st.conversations.find? (fun c => c.id == cid) = none)
    (hinit : init_conversation_with_system_prompt cfg p = some (.success content (some s) r f))
    (hs : s ≠ "") :
    (get_conversation_messages cfg p st cid).conversations =
      st.conversations ++ [⟨cid, "Speaker Kit Assistant", none⟩] ∧
    (get_conversation_messages cfg p st cid).messages =
      st.messages ++ [⟨cid, "ai", content, false⟩] ∧
    (get_conversation_messages cfg p st cid).httpSession.lookup (sessionKey cid) = some s := by
  have hsb : (s != "") = true := by simp [bne_iff_ne, hs]
  unfold get_conversation_messages
  rw [hfind, hinit]
  simp [otruthy, hsb, sessionSet, List.lookup]

/-- Witness for C7 (amended): the concrete successful initialization. -/
theorem C7_amended_witness :
    (emptyState.conversations.find? (fun c => c.id == "c1") = none) ∧
    ("S1" : String) ≠ "" ∧
    (get_conversation_messages cfgOk pInit emptyState "c1").conversations =
      [⟨"c1", "Speaker Kit Assistant", none⟩] ∧
    (get_conversation_messages cfgOk pInit emptyState "c1").httpSession.lookup
      (sessionKey "c1") = some "S1" := by
  have h := C7_amended cfgOk pInit emptyState "c1" "Hello" "r1" "S1"
    [("completed", .jbool true), ("output", .str "Hello")] rfl rfl (by decide)
  exact ⟨rfl, by decide, by simpa using h.1, h.2.2⟩

/-- C8: a first poll reply that is completed but in which no candidate
content can be extracted yields the distinct `'Empty response from agent'`
failure — not the timeout failure, and not any success (in particular not a
success carrying an empty string). -/
theorem C8_empty_completion (p : Provider) (rid : String) (sid : Option String)
    (body : List (String × JValue))
    (hp : p.poll rid 1 = .reply 200 body)
    (hc : truthy (jget body "completed" .null) = true)
    (he : extract_content_from_result body = none) :
    (poll_for_result p rid sid).result = .failure "Empty response from agent" ∧
    AgentResult.failure "Empty response from agent" ≠ .failure "Agent response timeout" ∧
    (∀ c s r f, AgentResult.failure "Empty response from agent" ≠ .success c s r f) := by
  refine ⟨?_, by simp, fun c s r f hh => AgentResult.noConfusion hh⟩
  have hp1 : p.poll rid (0 + 1) = .reply 200 body := by simpa using hp
  show (pollLoopAux p rid sid (23 + 1) 0).result = _
  rw [pollLoopAux]
  rw [hp1]
  simp [hc, he]

/-- Witness for C8: payload `{completed: true}` with no candidate field. -/
theorem C8_empty_completion_witness :
    pEmptyCompletion.poll "r1" 1 = .reply 200 [("completed", .jbool true)] ∧
    truthy (jget [("completed", .jbool true)] "completed" .null) = true ∧
    extract_content_from_result [("completed", .jbool true)] = none ∧
    (poll_for_result pEmptyCompletion "r1" (some "S1")).result =
      .failure "Empty response from agent" := by
  have h := C8_empty_completion pEmptyCompletion "r1" (some "S1")
    [("completed", .jbool true)] rfl rfl rfl
  exact ⟨rfl, rfl, rfl, h.1⟩

/-- C9: whenever the agent call inside `send_message` fails (any failure
string), the turn persists the assistant-role message
`'Something went wrong. Please try again.'`, returns HTTP 201 (success, not
a bare 500), and sets the `agent_error` flag with the error details. -/
theorem C9_agent_failure (cfg : Config) (p : Provider) (st : AppState) (cid rawContent : String)
    (image : Bool) (e : String)
    (hcontent : pyStrip rawContent ≠ "" ∨ image = true)
    (hfail : (send_message_agentCall cfg p st cid rawContent image).result = .failure e) :
    (send_message cfg p st cid rawContent image).statusCode = 201 ∧
    (send_message cfg p st cid rawContent image).agent_error = true ∧
    (send_message cfg p st cid rawContent image).agent_error_details = some e ∧
    (send_message cfg p st cid rawContent image).state.messages =
      (send_message_pre cfg p st cid (pyStrip rawContent) image).1.messages ++
        [⟨cid, "ai", "Something went wrong. Please try again.", false⟩] := by
  have hg : (pyStrip rawContent == "" && !image) = false := by
    rcases hcontent with h | h
    · simp [h]
    · simp [h]
  unfold send_message
  dsimp only
  rw [hg]
  simp only [Bool.false_eq_true, if_false]
  unfold send_message_agentCall at hfail
  dsimp only at hfail
  rw [hfail]
  simp

/-- Witness for C9: a submission-rejecting provider makes the turn return
201 with the fallback assistant message and the diagnostic flag. -/
theorem C9_agent_failure_witness :
    (pyStrip "hi" ≠ "" ∨ false = true) ∧
    (send_message cfgOk pSubmitFail stOne "c1" "hi" false).statusCode = 201 ∧
    (send_message cfgOk pSubmitFail stOne "c1" "hi" false).agent_error = true ∧
    (send_message cfgOk pSubmitFail stOne "c1" "hi" false).agent_error_details =
      some "Agent submission failed with status 500: boom" := by
  have h := C9_agent_failure cfgOk pSubmitFail stOne "c1" "hi" false
    "Agent submission failed with status 500: boom" (Or.inl (by decide)) rfl
  exact ⟨Or.inl (by decide), h.1, h.2.1, h.2.2.1⟩

/-- C10: the initialize operation never reads its `system_prompt` argument —
two runs with different prompts are identical (result and issued requests),
and when configured the single submit request carries the fixed hard-coded
`INIT_QUERY` text as its query. -/
theorem C10_prompt_independence (cfg : Config) (p : Provider) (sp1 sp2 : String)
    (sid : Option String) :
    init_with_system_prompt cfg p sp1 sid = init_with_system_prompt cfg p sp2 sid ∧
    (cfg.configured = true →
      (init_with_system_prompt cfg p sp1 sid).submits =
        [⟨INIT_QUERY, if otruthy sid then sid else none⟩]) := by
  refine ⟨rfl, fun hc => ?_⟩
  unfold init_with_system_prompt
  simp only [hc, Bool.not_true, Bool.false_eq_true, if_false]
  split
  · split
    · rfl
    · split <;> rfl
  · split
    · rfl
    · split <;> rfl

/-- Witness for C10: two distinct prompts produce identical runs, with the
fixed instruction block as the submitted query. -/
theorem C10_prompt_independence_witness :
    init_with_system_prompt cfgOk pInit "prompt one" none =
      init_with_system_prompt cfgOk pInit "prompt two" none ∧
    (init_with_system_prompt cfgOk pInit "prompt one" none).submits =
      [⟨INIT_QUERY, none⟩] := by
  have h := C10_prompt_independence cfgOk pInit "prompt one" "prompt two" none
  exact ⟨h.1, by simpa using h.2 rfl⟩

end SpeakerKit
